import Mathlib

/-!
Shallow embedding of `src/main.cpp` (RobotArmClick test harness).

The program drives an I2C slave device through two primitives
(`write_register`, `read_register`) plus a raw one-byte read, runs five
boolean test procedures in order, and reports the first failing test
index on four LEDs.  The embedding models:

* the I2C device as an abstract transition system (`Device`), since the
  slave firmware is not part of this repository;
* every bus transaction issued by the program, together with the
  response observed, as a `BusOp` trace;
* the `fprintf` mismatch diagnostics as a `Diag` list;
* the hidden `rand()` state as a stream `rng : Nat → Nat` together with
  an index `rix` of the next value to consume (each `rand()` call in the
  C source consumes one stream element, in source evaluation order);
* `char` values (unsigned 8-bit on the target) as `Nat` reduced `% 256`
  at the points where the C code converts to `char`.
-/

/-- Bus transaction as issued by the program, with the observed response:
`write addr val ok` is a `write_register` call (`ok` = bus acknowledged),
`readReg addr res` is a `read_register` call (address-select write plus a
one-byte read; `res = none` on bus error), and `rawRead res` is a bare
one-byte `i2c.read` with no preceding address select. -/
inductive BusOp where
  | write (addr val : Nat) (ok : Bool)
  | readReg (addr : Nat) (res : Option Nat)
  | rawRead (res : Option Nat)
deriving DecidableEq, Repr

/-- Diagnostic line printed with `fprintf(stderr, ...)` on a value
mismatch: register address, value expected, value observed. -/
structure Diag where
  reg : Nat
  expected : Nat
  observed : Nat
deriving DecidableEq, Repr

/-- Abstract I2C slave device: a state type together with the three bus
transactions the harness can issue.  `none` models a failed (not
acknowledged) transaction. -/
structure Device (σ : Type) where
  write : σ → Nat → Nat → Option σ
  readReg : σ → Nat → Option (Nat × σ)
  rawRead : σ → Option (Nat × σ)

/-- Result of running one test procedure: boolean outcome, final device
state, trace of bus operations issued, diagnostics printed, and the next
unused index of the `rand()` stream. -/
structure Run (σ : Type) where
  ok : Bool
  dev : σ
  ops : List BusOp
  diags : List Diag
  rix : Nat

/-- Result of a helper that performs bus operations but never consumes
`rand()` and never prints diagnostics (`check_all_register` and the
zero-initialisation loop of test 3). -/
structure CRes (σ : Type) where
  ok : Bool
  dev : σ
  ops : List BusOp

/-- Tests configuration macro `TEST_WRITE_READ_REG_1_4_COUNT`. -/
def TEST_WRITE_READ_REG_1_4_COUNT : Nat := 100

/-- Tests configuration macro `TEST_WRITE_READ_REG_0_COUNT`. -/
def TEST_WRITE_READ_REG_0_COUNT : Nat := 10

/-- Tests configuration macro `TEST_WRITE_REG_READ_ALL_COUNT`. -/
def TEST_WRITE_REG_READ_ALL_COUNT : Nat := 500

/-- Tests configuration macro `TEST_WRITE_INVALID_REG_READ_ALL_COUNT`. -/
def TEST_WRITE_INVALID_REG_READ_ALL_COUNT : Nat := 500

/-- Tests configuration macro `TEST_WRITE_INVALID_REG_READ_ZERO_COUNT`. -/
def TEST_WRITE_INVALID_REG_READ_ZERO_COUNT : Nat := 500

/-- Loop body of `check_all_register`: reads registers `i, i+1, ...`
(`fuel` of them), comparing each against `expected`; register 0 is
compared on the low nibble only, all others exactly.  Returns at the
first bus error or mismatch without issuing the remaining reads. -/
def check_go {σ : Type} (D : Device σ) (expected : List Nat) :
    Nat → Nat → σ → CRes σ
  | _, 0, s => ⟨true, s, []⟩
  | i, fuel+1, s =>
    match D.readReg s i with
    | none => ⟨false, s, [BusOp.readReg i none]⟩
    | some (w, s1) =>
      let v := w % 256
      let e := expected.getD i 0 % 256
      if (if i = 0 then v % 16 = e % 16 else v = e) then
        let r := check_go D expected (i+1) fuel s1
        ⟨r.ok, r.dev, BusOp.readReg i (some v) :: r.ops⟩
      else ⟨false, s1, [BusOp.readReg i (some v)]⟩

/-- Embedding of `check_all_register` (src/main.cpp lines 77-94): reads
registers 0-4 in order against the expected snapshot. -/
def check_all_register {σ : Type} (D : Device σ) (expected : List Nat)
    (s : σ) : CRes σ :=
  check_go D expected 0 5 s

/-- Loop body of `test_write_read_reg_1_4` (src/main.cpp lines 106-130).
Per iteration: pick `reg_address = rand() % 4` and `value = rand()`
(randomized mode) or `i % 4` and `i` (deterministic mode), write, read
back, and require exact equality, printing a diagnostic on mismatch. -/
def t14_go {σ : Type} (D : Device σ) (rnd : Bool) (rng : Nat → Nat) :
    Nat → Nat → Nat → σ → Run σ
  | _, rix, 0, s => ⟨true, s, [], [], rix⟩
  | i, rix, fuel+1, s =>
    let g := if rnd then (rng rix % 4, rng (rix+1) % 256, rix + 2)
             else (i % 4, i % 256, rix)
    let a := g.1
    let v := g.2.1
    let rix1 := g.2.2
    match D.write s a v with
    | none => ⟨false, s, [BusOp.write a v false], [], rix1⟩
    | some s1 =>
      match D.readReg s1 a with
      | none => ⟨false, s1, [BusOp.write a v true, BusOp.readReg a none], [], rix1⟩
      | some (w, s2) =>
        let vr := w % 256
        if v = vr then
          let r := t14_go D rnd rng (i+1) rix1 fuel s2
          ⟨r.ok, r.dev, BusOp.write a v true :: BusOp.readReg a (some vr) :: r.ops,
           r.diags, r.rix⟩
        else
          ⟨false, s2, [BusOp.write a v true, BusOp.readReg a (some vr)],
           [⟨a, v, vr⟩], rix1⟩

/-- Embedding of `test_write_read_reg_1_4` (src/main.cpp lines 106-130). -/
def test_write_read_reg_1_4 {σ : Type} (D : Device σ) (rnd : Bool)
    (rng : Nat → Nat) (rix : Nat) (s : σ) : Run σ :=
  t14_go D rnd rng 0 rix TEST_WRITE_READ_REG_1_4_COUNT s

/-- Loop body of `test_write_read_reg_0` (src/main.cpp lines 140-161).
Per iteration: `value = rand()` (randomized) or `i` (deterministic),
write register 0, read it back, compare low nibbles only, printing the
masked values on mismatch. -/
def t0_go {σ : Type} (D : Device σ) (rnd : Bool) (rng : Nat → Nat) :
    Nat → Nat → Nat → σ → Run σ
  | _, rix, 0, s => ⟨true, s, [], [], rix⟩
  | i, rix, fuel+1, s =>
    let g := if rnd then (rng rix % 256, rix + 1) else (i % 256, rix)
    let v := g.1
    let rix1 := g.2
    match D.write s 0 v with
    | none => ⟨false, s, [BusOp.write 0 v false], [], rix1⟩
    | some s1 =>
      match D.readReg s1 0 with
      | none => ⟨false, s1, [BusOp.write 0 v true, BusOp.readReg 0 none], [], rix1⟩
      | some (w, s2) =>
        let vr := w % 256
        if v % 16 = vr % 16 then
          let r := t0_go D rnd rng (i+1) rix1 fuel s2
          ⟨r.ok, r.dev, BusOp.write 0 v true :: BusOp.readReg 0 (some vr) :: r.ops,
           r.diags, r.rix⟩
        else
          ⟨false, s2, [BusOp.write 0 v true, BusOp.readReg 0 (some vr)],
           [⟨0, v % 16, vr % 16⟩], rix1⟩

/-- Embedding of `test_write_read_reg_0` (src/main.cpp lines 140-161). -/
def test_write_read_reg_0 {σ : Type} (D : Device σ) (rnd : Bool)
    (rng : Nat → Nat) (rix : Nat) (s : σ) : Run σ :=
  t0_go D rnd rng 0 rix TEST_WRITE_READ_REG_0_COUNT s

/-- Initialisation loop of `test_write_reg_read_all` (src/main.cpp lines
173-175): writes 0 to registers `i, i+1, ...`, aborting on bus error. -/
def t3_init {σ : Type} (D : Device σ) : Nat → Nat → σ → CRes σ
  | _, 0, s => ⟨true, s, []⟩
  | i, fuel+1, s =>
    match D.write s i 0 with
    | none => ⟨false, s, [BusOp.write i 0 false]⟩
    | some s1 =>
      let r := t3_init D (i+1) fuel s1
      ⟨r.ok, r.dev, BusOp.write i 0 true :: r.ops⟩

/-- Main loop of `test_write_reg_read_all` (src/main.cpp lines 177-188).
Per iteration (always randomized, there is no deterministic mode in the
source): `reg_address = rand() % 5`, `regs[reg_address] = rand()`, write
the new value, then check all five registers against the shadow. -/
def t3_go {σ : Type} (D : Device σ) (rng : Nat → Nat) :
    List Nat → Nat → Nat → σ → Run σ
  | _, rix, 0, s => ⟨true, s, [], [], rix⟩
  | regs, rix, fuel+1, s =>
    let a := rng rix % 5
    let v := rng (rix+1) % 256
    let regs1 := regs.set a v
    match D.write s a v with
    | none => ⟨false, s, [BusOp.write a v false], [], rix + 2⟩
    | some s1 =>
      let c := check_all_register D regs1 s1
      if c.ok then
        let r := t3_go D rng regs1 (rix + 2) fuel c.dev
        ⟨r.ok, r.dev, BusOp.write a v true :: (c.ops ++ r.ops), r.diags, r.rix⟩
      else ⟨false, c.dev, BusOp.write a v true :: c.ops, [], rix + 2⟩

/-- Embedding of `test_write_reg_read_all` (src/main.cpp lines 168-191).
Unlike the other four tests this function has no compile-time
random/deterministic switch in the source: it always calls `rand()`. -/
def test_write_reg_read_all {σ : Type} (D : Device σ) (rng : Nat → Nat)
    (rix : Nat) (s : σ) : Run σ :=
  let ir := t3_init D 0 5 s
  if ir.ok then
    let r := t3_go D rng [0, 0, 0, 0, 0] rix TEST_WRITE_REG_READ_ALL_COUNT ir.dev
    ⟨r.ok, r.dev, ir.ops ++ r.ops, r.diags, r.rix⟩
  else ⟨false, ir.dev, ir.ops, [], rix⟩

/-- Initialisation loop of `test_write_invalid_reg_read_all`
(src/main.cpp lines 205-213): fills `regs[i]` with `rand()` (randomized)
or `i` (deterministic) and writes it to register `i`, aborting on bus
error.  Returns the filled shadow and the next `rand()` index. -/
def t4_init {σ : Type} (D : Device σ) (rnd : Bool) (rng : Nat → Nat) :
    List Nat → Nat → Nat → Nat → σ → CRes σ × List Nat × Nat
  | regs, _, rix, 0, s => (⟨true, s, []⟩, regs, rix)
  | regs, i, rix, fuel+1, s =>
    let g := if rnd then (rng rix % 256, rix + 1) else (i % 256, rix)
    let v := g.1
    let rix1 := g.2
    let regs1 := regs.set i v
    match D.write s i v with
    | none => (⟨false, s, [BusOp.write i v false]⟩, regs1, rix1)
    | some s1 =>
      let r := t4_init D rnd rng regs1 (i+1) rix1 fuel s1
      (⟨r.1.ok, r.1.dev, BusOp.write i v true :: r.1.ops⟩, r.2.1, r.2.2)

/-- Main loop of `test_write_invalid_reg_read_all` (src/main.cpp lines
215-231).  Per iteration: `reg_address = (rand() % 250) + 5` and
`value = rand()` (randomized) or `(i % 250) + 5` and `i` (deterministic),
write, then check registers 0-4 against the shadow. -/
def t4_go {σ : Type} (D : Device σ) (rnd : Bool) (rng : Nat → Nat)
    (regs : List Nat) : Nat → Nat → Nat → σ → Run σ
  | _, rix, 0, s => ⟨true, s, [], [], rix⟩
  | i, rix, fuel+1, s =>
    let g := if rnd then ((rng rix % 250) + 5, rng (rix+1) % 256, rix + 2)
             else ((i % 250) + 5, i % 256, rix)
    let a := g.1
    let v := g.2.1
    let rix1 := g.2.2
    match D.write s a v with
    | none => ⟨false, s, [BusOp.write a v false], [], rix1⟩
    | some s1 =>
      let c := check_all_register D regs s1
      if c.ok then
        let r := t4_go D rnd rng regs (i+1) rix1 fuel c.dev
        ⟨r.ok, r.dev, BusOp.write a v true :: (c.ops ++ r.ops), r.diags, r.rix⟩
      else ⟨false, c.dev, BusOp.write a v true :: c.ops, [], rix1⟩

/-- Embedding of `test_write_invalid_reg_read_all` (src/main.cpp lines
200-234). -/
def test_write_invalid_reg_read_all {σ : Type} (D : Device σ) (rnd : Bool)
    (rng : Nat → Nat) (rix : Nat) (s : σ) : Run σ :=
  let ir := t4_init D rnd rng [0, 0, 0, 0, 0] 0 rix 5 s
  if ir.1.ok then
    let r := t4_go D rnd rng ir.2.1 0 ir.2.2 TEST_WRITE_INVALID_REG_READ_ALL_COUNT
               ir.1.dev
    ⟨r.ok, r.dev, ir.1.ops ++ r.ops, r.diags, r.rix⟩
  else ⟨false, ir.1.dev, ir.1.ops, [], ir.2.2⟩

/-- Loop body of `test_write_invalid_reg_read_zero` (src/main.cpp lines
244-269).  Per iteration: write to `(rand() % 250) + 5` (randomized) or
`(i % 250) + 5` (deterministic), then perform one bare `i2c.read` and
require the byte received to be exactly zero. -/
def t5_go {σ : Type} (D : Device σ) (rnd : Bool) (rng : Nat → Nat) :
    Nat → Nat → Nat → σ → Run σ
  | _, rix, 0, s => ⟨true, s, [], [], rix⟩
  | i, rix, fuel+1, s =>
    let g := if rnd then ((rng rix % 250) + 5, rng (rix+1) % 256, rix + 2)
             else ((i % 250) + 5, i % 256, rix)
    let a := g.1
    let v := g.2.1
    let rix1 := g.2.2
    match D.write s a v with
    | none => ⟨false, s, [BusOp.write a v false], [], rix1⟩
    | some s1 =>
      match D.rawRead s1 with
      | none => ⟨false, s1, [BusOp.write a v true, BusOp.rawRead none], [], rix1⟩
      | some (w, s2) =>
        let vr := w % 256
        if vr = 0 then
          let r := t5_go D rnd rng (i+1) rix1 fuel s2
          ⟨r.ok, r.dev, BusOp.write a v true :: BusOp.rawRead (some vr) :: r.ops,
           r.diags, r.rix⟩
        else ⟨false, s2, [BusOp.write a v true, BusOp.rawRead (some vr)], [], rix1⟩

/-- Embedding of `test_write_invalid_reg_read_zero` (src/main.cpp lines
244-269). -/
def test_write_invalid_reg_read_zero {σ : Type} (D : Device σ) (rnd : Bool)
    (rng : Nat → Nat) (rix : Nat) (s : σ) : Run σ :=
  t5_go D rnd rng 0 rix TEST_WRITE_INVALID_REG_READ_ZERO_COUNT s

/-- Loop of `run_tests` (src/main.cpp lines 277-296) starting at index
`n`: the list holds the boolean outcome each remaining test would
produce.  Returns the C return value (0 on all pass, 1-based index of
the first failure otherwise) together with the 0-based indices of the
tests actually executed, in execution order. -/
def run_tests_go : Nat → List Bool → Nat × List Nat
  | _, [] => (0, [])
  | n, t :: rest =>
    if t then
      let r := run_tests_go (n+1) rest
      (r.1, n :: r.2)
    else (n + 1, [n])

/-- Embedding of `run_tests` (src/main.cpp lines 277-296): the `NULL`
terminated array of tests becomes a list of test outcomes. -/
def run_tests (tests : List Bool) : Nat × List Nat :=
  run_tests_go 0 tests

/-- State of the four board LEDs (`led1` is bit 0 of a displayed
number, `led4` is bit 3). -/
structure Leds where
  led1 : Bool
  led2 : Bool
  led3 : Bool
  led4 : Bool
deriving DecidableEq, Repr

/-- Embedding of `led_show_number` (src/main.cpp lines 52-62): turns on
the LEDs whose bit is set in `c`, leaving the other LEDs untouched. -/
def led_show_number (c : Nat) (l : Leds) : Leds :=
  let l1 := if c &&& 1 ≠ 0 then { l with led1 := true } else l
  let l2 := if c &&& 2 ≠ 0 then { l1 with led2 := true } else l1
  let l3 := if c &&& 4 ≠ 0 then { l2 with led3 := true } else l2
  if c &&& 8 ≠ 0 then { l3 with led4 := true } else l3

/-- All four LEDs on. -/
def ledsOn : Leds := ⟨true, true, true, true⟩

/-- All four LEDs off. -/
def ledsOff : Leds := ⟨false, false, false, false⟩

/-- Embedding of `flash_all_leds` (src/main.cpp lines 304-312): the
infinite loop is modelled as the stream of its phases, phase `n` being
the LED state driven during that phase together with the `wait_ms`
duration that follows (all LEDs on for 100 ms, then all off for 100 ms,
forever). -/
def flash_all_leds (n : Nat) : Leds × Nat :=
  if n % 2 = 0 then (ledsOn, 100) else (ledsOff, 100)

/-- Observable outcome of `main`: either the success path, which prints
the success line and then never returns (`flashForever`), or the failure
path, which returns from `main` with the given exit code and the LEDs in
the given state. -/
inductive MainOutcome where
  | flashForever
  | exitsWith (code : Nat) (leds : Leds)
deriving DecidableEq, Repr

/-- Embedding of `main` (src/main.cpp lines 314-342), abstracted over
the outcomes the five tests would produce in execution order: clears the
four LEDs, runs the tests, and either flashes forever (all passed) or
shows the 1-based failing index (converted to `char`, hence `% 256`) on
the LEDs and returns 0. -/
def mainEntry (tests : List Bool) : MainOutcome :=
  let ret := (run_tests tests).1
  if ret = 0 then MainOutcome.flashForever
  else MainOutcome.exitsWith 0
    (led_show_number (ret % 256) ⟨false, false, false, false⟩)

/-- Device that acknowledges every transaction and always returns the
byte 0 on reads: a concrete instance used to evaluate the harness on
closed inputs. -/
def trivDev : Device Unit where
  write _ _ _ := some ()
  readReg _ _ := some (0, ())
  rawRead _ := some (0, ())

/-- Predicate on a bus operation: holds when the operation is a
`read_register` transaction. -/
def BusOp.isReadReg : BusOp → Bool
  | BusOp.readReg _ _ => true
  | _ => false

/-- Register address targeted by a bus operation (0 for a raw read,
which selects no register). -/
def opAddr : BusOp → Nat
  | BusOp.write a _ _ => a
  | BusOp.readReg a _ => a
  | BusOp.rawRead _ => 0

/-- Predicate used to state `check_all_register` correctness: a read of
register `a` succeeded and its byte matches `expected` under the
comparison the source uses at that address (low nibble for register 0,
exact byte otherwise).  Non-read operations pass vacuously. -/
def goodRead (expected : List Nat) : BusOp → Bool
  | BusOp.readReg a (some v) =>
      let e := expected.getD a 0 % 256
      if a = 0 then v % 16 == e % 16 else v == e
  | BusOp.readReg _ none => false
  | _ => true

/-- Predicate used to state test 5 correctness: a write was acknowledged,
or a raw read succeeded returning exactly zero. -/
def goodZero : BusOp → Bool
  | BusOp.write _ _ ok => ok
  | BusOp.rawRead res => res == some 0
  | BusOp.readReg _ _ => true

/-- Shape predicate for the test 5 trace: a sequence of
write-then-raw-read pairs, possibly ending early after a failed write. -/
def isWrRaw : List BusOp → Bool
  | [] => true
  | [BusOp.write _ _ _] => true
  | BusOp.write _ _ _ :: BusOp.rawRead _ :: rest => isWrRaw rest
  | _ => false

/-- Predicate: the operation, if a write, targets an address at most 3. -/
def addrLe3 : BusOp → Bool
  | BusOp.write a _ _ => decide (a ≤ 3)
  | _ => true

/-- Predicate: the operation, if a write, targets an address at most 254. -/
def addrLe254 : BusOp → Bool
  | BusOp.write a _ _ => decide (a ≤ 254)
  | _ => true

/-- Predicate: the operation, if a write, targets an address in the range
generated for invalid registers, `[5, 254]`. -/
def addrInvalidRange : BusOp → Bool
  | BusOp.write a _ _ => decide (5 ≤ a ∧ a ≤ 254)
  | _ => true

theorem check_go_master {σ : Type} (D : Device σ) (e : List Nat) :
    ∀ fuel i s,
      ((check_go D e i fuel s).ops.all BusOp.isReadReg = true)
    ∧ ((check_go D e i fuel s).ops.map opAddr
         = List.range' i (check_go D e i fuel s).ops.length)
    ∧ ((check_go D e i fuel s).ops.length ≤ fuel)
    ∧ ((check_go D e i fuel s).ops.dropLast.all (goodRead e) = true)
    ∧ ((check_go D e i fuel s).ok
         = (decide ((check_go D e i fuel s).ops.length = fuel)
            && (check_go D e i fuel s).ops.all (goodRead e))) := by
  intro fuel
  induction fuel with
  | zero =>
    intro i s
    simp [check_go]
  | succ f ih =>
    intro i s
    rcases hr : D.readReg s i with _ | ⟨w, s1⟩
    · simp [check_go, hr, BusOp.isReadReg, opAddr, goodRead, List.range'_succ]
    · simp only [check_go, hr]
      by_cases hc : (if i = 0 then w % 256 % 16 = e.getD i 0 % 256 % 16
                     else w % 256 = e.getD i 0 % 256)
      · rw [if_pos hc]
        obtain ⟨ih1, ih2, ih3, ih4, ih5⟩ := ih (i+1) s1
        have hgood : goodRead e (BusOp.readReg i (some (w % 256))) = true := by
          by_cases hi : i = 0
          · subst hi
            rw [if_pos rfl] at hc
            simp only [goodRead]
            rw [if_pos trivial]
            exact beq_iff_eq.mpr hc
          · rw [if_neg hi] at hc
            simp only [goodRead]
            rw [if_neg hi]
            exact beq_iff_eq.mpr hc
        refine ⟨?_, ?_, ?_, ?_, ?_⟩
        · simp [List.all_cons, BusOp.isReadReg, ih1]
        · simp [opAddr, ih2, List.range'_succ]
        · simp only [List.length_cons]
          omega
        · rcases hro : (check_go D e (i+1) f s1).ops with _ | ⟨b, l⟩
          · simp [hro]
          · rw [hro] at ih4
            show ((BusOp.readReg i (some (w % 256)) :: b :: l).dropLast).all
              (goodRead e) = true
            rw [List.dropLast_cons₂]
            simp [hgood, ih4]
        · show (check_go D e (i+1) f s1).ok = _
          rw [ih5]
          simp only [List.all_cons, List.length_cons, hgood, Bool.true_and]
          have hd : (decide ((check_go D e (i+1) f s1).ops.length + 1 = f + 1))
              = (decide ((check_go D e (i+1) f s1).ops.length = f)) :=
            decide_eq_decide.mpr (by omega)
          rw [hd]
      · rw [if_neg hc]
        have hgood : goodRead e (BusOp.readReg i (some (w % 256))) = false := by
          by_cases hi : i = 0
          · subst hi
            rw [if_pos rfl] at hc
            simp only [goodRead]
            rw [if_pos trivial]
            exact beq_eq_false_iff_ne.mpr hc
          · rw [if_neg hi] at hc
            simp only [goodRead]
            rw [if_neg hi]
            exact beq_eq_false_iff_ne.mpr hc
        refine ⟨?_, ?_, ?_, ?_, ?_⟩
        · simp [BusOp.isReadReg]
        · simp [opAddr, List.range'_succ]
        · simp
        · simp
        · simp [hgood]

theorem t14_go_master {σ : Type} (D : Device σ) (rnd : Bool) (rng : Nat → Nat) :
    ∀ fuel i rix s,
      ((t14_go D rnd rng i rix fuel s).ops.all addrLe3 = true)
    ∧ ((t14_go D rnd rng i rix fuel s).diags = []
        ∨ ((t14_go D rnd rng i rix fuel s).ok = false
           ∧ ∃ d : Diag, (t14_go D rnd rng i rix fuel s).diags = [d]
             ∧ (d.expected == d.observed) = false)) := by
  intro fuel
  induction fuel with
  | zero =>
    intro i rix s
    simp [t14_go]
  | succ f ih =>
    intro i rix s
    simp only [t14_go]
    have ha : (if rnd then (rng rix % 4, rng (rix+1) % 256, rix + 2)
               else (i % 4, i % 256, rix)).1 ≤ 3 := by
      rcases rnd <;> simp <;> omega
    generalize (if rnd then (rng rix % 4, rng (rix+1) % 256, rix + 2)
               else (i % 4, i % 256, rix)) = g at ha ⊢
    obtain ⟨a, va, rix1⟩ := g
    simp only at ha ⊢
    rcases hw : D.write s a va with _ | s1
    · simp [hw, addrLe3, ha]
    · rcases hrd : D.readReg s1 a with _ | ⟨w, s2⟩
      · simp [hw, hrd, addrLe3, ha, BusOp.isReadReg]
      · simp only [hw, hrd]
        by_cases hv : va = w % 256
        · rw [if_pos hv]
          obtain ⟨ih1, ih2⟩ := ih (i+1) rix1 s2
          constructor
          · simp [List.all_cons, addrLe3, ha, ih1]
          · rcases ih2 with h | ⟨hok, d, hd, hne⟩
            · left; simpa using h
            · right
              exact ⟨by simpa using hok, d, by simpa using hd, hne⟩
        · rw [if_neg hv]
          constructor
          · simp [List.all_cons, addrLe3, ha]
          · right
            refine ⟨rfl, ⟨a, va, w % 256⟩, rfl, ?_⟩
            exact beq_eq_false_iff_ne.mpr hv

theorem t0_go_master {σ : Type} (D : Device σ) (rnd : Bool) (rng : Nat → Nat) :
    ∀ fuel i rix s,
      (t0_go D rnd rng i rix fuel s).diags = []
      ∨ ((t0_go D rnd rng i rix fuel s).ok = false
         ∧ ∃ d : Diag, (t0_go D rnd rng i rix fuel s).diags = [d]
           ∧ d.reg = 0 ∧ (d.expected == d.observed) = false
           ∧ d.expected < 16 ∧ d.observed < 16) := by
  intro fuel
  induction fuel with
  | zero =>
    intro i rix s
    simp [t0_go]
  | succ f ih =>
    intro i rix s
    simp only [t0_go]
    generalize (if rnd then (rng rix % 256, rix + 1) else (i % 256, rix)) = g
    obtain ⟨va, rix1⟩ := g
    simp only
    rcases hw : D.write s 0 va with _ | s1
    · simp [hw]
    · rcases hrd : D.readReg s1 0 with _ | ⟨w, s2⟩
      · simp [hw, hrd]
      · simp only [hw, hrd]
        by_cases hv : va % 16 = w % 256 % 16
        · rw [if_pos hv]
          rcases ih (i+1) rix1 s2 with h | ⟨hok, d, hd, hreg, hne, he, ho⟩
          · left; simpa using h
          · right
            exact ⟨by simpa using hok, d, by simpa using hd, hreg, hne, he, ho⟩
        · rw [if_neg hv]
          right
          refine ⟨rfl, ⟨0, va % 16, w % 256 % 16⟩, rfl, rfl, ?_, ?_, ?_⟩
          · exact beq_eq_false_iff_ne.mpr hv
          · exact Nat.mod_lt _ (by omega)
          · exact Nat.mod_lt _ (by omega)

theorem all_weaken {α : Type} {p q : α → Bool}
    (h : ∀ x, p x = true → q x = true) :
    ∀ l : List α, l.all p = true → l.all q = true := by
  intro l hl
  rw [List.all_eq_true] at hl ⊢
  exact fun x hx => h x (hl x hx)

theorem t3_go_diags {σ : Type} (D : Device σ) (rng : Nat → Nat) :
    ∀ fuel regs rix s, (t3_go D rng regs rix fuel s).diags = [] := by
  intro fuel
  induction fuel with
  | zero =>
    intro regs rix s
    simp [t3_go]
  | succ f ih =>
    intro regs rix s
    simp only [t3_go]
    rcases hw : D.write s (rng rix % 5) (rng (rix+1) % 256) with _ | s1
    · simp
    · simp only
      by_cases hc : (check_all_register D (regs.set (rng rix % 5) (rng (rix+1) % 256))
          s1).ok = true
      · rw [if_pos hc]
        simpa using ih _ (rix + 2) _
      · rw [if_neg hc]

theorem test_write_reg_read_all_diags {σ : Type} (D : Device σ)
    (rng : Nat → Nat) (rix : Nat) (s : σ) :
    (test_write_reg_read_all D rng rix s).diags = [] := by
  simp only [test_write_reg_read_all]
  by_cases h : (t3_init D 0 5 s).ok = true
  · rw [if_pos h]
    simpa using t3_go_diags D rng _ _ rix _
  · rw [if_neg h]

theorem t5_go_master {σ : Type} (D : Device σ) (rnd : Bool) (rng : Nat → Nat) :
    ∀ fuel i rix s,
      ((t5_go D rnd rng i rix fuel s).ops.all (fun op => !BusOp.isReadReg op) = true)
    ∧ (isWrRaw (t5_go D rnd rng i rix fuel s).ops = true)
    ∧ ((t5_go D rnd rng i rix fuel s).ok
        = (t5_go D rnd rng i rix fuel s).ops.all goodZero)
    ∧ ((t5_go D rnd rng i rix fuel s).ops.all addrInvalidRange = true)
    ∧ ((t5_go D rnd rng i rix fuel s).diags = []) := by
  intro fuel
  induction fuel with
  | zero =>
    intro i rix s
    simp [t5_go, isWrRaw]
  | succ f ih =>
    intro i rix s
    simp only [t5_go]
    rcases hg : (if rnd then ((rng rix % 250) + 5, rng (rix+1) % 256, rix + 2)
               else ((i % 250) + 5, i % 256, rix)) with ⟨a, va, rix1⟩
    dsimp only
    have ha : 5 ≤ a ∧ a ≤ 254 := by
      rcases rnd <;> simp [Prod.ext_iff] at hg <;> omega
    have haOK : addrInvalidRange (BusOp.write a va true) = true := by
      simp [addrInvalidRange]
      exact ⟨ha.1, ha.2⟩
    have haOKf : addrInvalidRange (BusOp.write a va false) = true := by
      simp [addrInvalidRange]
      exact ⟨ha.1, ha.2⟩
    rcases hw : D.write s a va with _ | s1
    · simp [hw, BusOp.isReadReg, isWrRaw, goodZero, haOKf]
    · rcases hrr : D.rawRead s1 with _ | ⟨w, s2⟩
      · simp [hw, hrr, BusOp.isReadReg, isWrRaw, goodZero, haOK, addrInvalidRange,
          ha.1, ha.2]
      · simp only [hw, hrr]
        by_cases hz : w % 256 = 0
        · rw [if_pos hz]
          obtain ⟨ih1, ih2, ih3, ih4, ih5⟩ := ih (i+1) rix1 s2
          refine ⟨?_, ?_, ?_, ?_, ?_⟩
          · simp only [List.all_cons, Bool.and_eq_true]
            exact ⟨rfl, rfl, ih1⟩
          · simpa [isWrRaw] using ih2
          · simp only [List.all_cons]
            rw [show (t5_go D rnd rng (i+1) rix1 f s2).ok
                = (t5_go D rnd rng (i+1) rix1 f s2).ops.all goodZero from ih3]
            simp [goodZero, hz]
          · simp only [List.all_cons, Bool.and_eq_true]
            exact ⟨haOK, rfl, ih4⟩
          · simpa using ih5
        · rw [if_neg hz]
          refine ⟨?_, ?_, ?_, ?_, ?_⟩
          · simp [BusOp.isReadReg]
          · simp [isWrRaw]
          · simp [goodZero, hz]
          · simp only [List.all_cons, Bool.and_eq_true]
            refine ⟨haOK, rfl, by simp⟩
          · rfl

theorem isReadReg_addrLe254 :
    ∀ op : BusOp, BusOp.isReadReg op = true → addrLe254 op = true := by
  intro op h
  cases op with
  | write a v ok => simp [BusOp.isReadReg] at h
  | readReg a res => simp [addrLe254]
  | rawRead res => simp [addrLe254]

theorem t4_init_addr {σ : Type} (D : Device σ) (rnd : Bool) (rng : Nat → Nat) :
    ∀ fuel regs i rix s, i + fuel ≤ 5 →
      (t4_init D rnd rng regs i rix fuel s).1.ops.all addrLe254 = true := by
  intro fuel
  induction fuel with
  | zero =>
    intro regs i rix s _
    simp [t4_init]
  | succ f ih =>
    intro regs i rix s hif
    simp only [t4_init]
    rcases hg : (if rnd then (rng rix % 256, rix + 1) else (i % 256, rix))
      with ⟨v, rix1⟩
    dsimp only
    have hi : addrLe254 (BusOp.write i v true) = true ∧
        addrLe254 (BusOp.write i v false) = true := by
      constructor <;> simp [addrLe254] <;> omega
    rcases hw : D.write s i v with _ | s1
    · simp [hi.2]
    · simp only [List.all_cons, Bool.and_eq_true]
      exact ⟨hi.1, ih _ (i+1) rix1 s1 (by omega)⟩

theorem t4_go_master {σ : Type} (D : Device σ) (rnd : Bool) (rng : Nat → Nat)
    (regs : List Nat) :
    ∀ fuel i rix s,
      ((t4_go D rnd rng regs i rix fuel s).ops.all addrLe254 = true)
    ∧ ((t4_go D rnd rng regs i rix fuel s).diags = []) := by
  intro fuel
  induction fuel with
  | zero =>
    intro i rix s
    simp [t4_go]
  | succ f ih =>
    intro i rix s
    simp only [t4_go]
    rcases hg : (if rnd then ((rng rix % 250) + 5, rng (rix+1) % 256, rix + 2)
               else ((i % 250) + 5, i % 256, rix)) with ⟨a, va, rix1⟩
    dsimp only
    have ha : a ≤ 254 := by
      rcases rnd <;> simp [Prod.ext_iff] at hg <;> omega
    have haOK : addrLe254 (BusOp.write a va true) = true := by
      simp [addrLe254, ha]
    have haOKf : addrLe254 (BusOp.write a va false) = true := by
      simp [addrLe254, ha]
    have hcheck : (check_all_register D regs s).ops.all addrLe254 = true := by
      exact all_weaken isReadReg_addrLe254 _ (check_go_master D regs 5 0 s).1
    rcases hw : D.write s a va with _ | s1
    · simp [haOKf]
    · dsimp only
      have hcheck1 : (check_all_register D regs s1).ops.all addrLe254 = true :=
        all_weaken isReadReg_addrLe254 _ (check_go_master D regs 5 0 s1).1
      by_cases hc : (check_all_register D regs s1).ok = true
      · rw [if_pos hc]
        obtain ⟨ih1, ih2⟩ := ih (i+1) rix1 (check_all_register D regs s1).dev
        constructor
        · simp only [List.all_cons, List.all_append, Bool.and_eq_true]
          exact ⟨haOK, hcheck1, ih1⟩
        · simpa using ih2
      · rw [if_neg hc]
        constructor
        · simp only [List.all_cons, Bool.and_eq_true]
          exact ⟨haOK, hcheck1⟩
        · rfl

theorem test_write_invalid_reg_read_all_master {σ : Type} (D : Device σ)
    (rnd : Bool) (rng : Nat → Nat) (rix : Nat) (s : σ) :
    ((test_write_invalid_reg_read_all D rnd rng rix s).ops.all addrLe254 = true)
  ∧ ((test_write_invalid_reg_read_all D rnd rng rix s).diags = []) := by
  simp only [test_write_invalid_reg_read_all]
  by_cases h : (t4_init D rnd rng [0, 0, 0, 0, 0] 0 rix 5 s).1.ok = true
  · rw [if_pos h]
    constructor
    · simp only [List.all_append, Bool.and_eq_true]
      exact ⟨t4_init_addr D rnd rng 5 [0, 0, 0, 0, 0] 0 rix s (by omega),
        (t4_go_master D rnd rng _ TEST_WRITE_INVALID_REG_READ_ALL_COUNT 0 _ _).1⟩
    · simpa using
        (t4_go_master D rnd rng _ TEST_WRITE_INVALID_REG_READ_ALL_COUNT 0 _ _).2
  · rw [if_neg h]
    exact ⟨t4_init_addr D rnd rng 5 [0, 0, 0, 0, 0] 0 rix s (by omega), rfl⟩

theorem t14_go_det {σ : Type} (D : Device σ) (rng rng' : Nat → Nat) :
    ∀ fuel i rix rix' s,
      ((t14_go D false rng i rix fuel s).ok = (t14_go D false rng' i rix' fuel s).ok)
    ∧ ((t14_go D false rng i rix fuel s).dev = (t14_go D false rng' i rix' fuel s).dev)
    ∧ ((t14_go D false rng i rix fuel s).ops = (t14_go D false rng' i rix' fuel s).ops)
    ∧ ((t14_go D false rng i rix fuel s).diags
        = (t14_go D false rng' i rix' fuel s).diags) := by
  intro fuel
  induction fuel with
  | zero =>
    intro i rix rix' s
    simp [t14_go]
  | succ f ih =>
    intro i rix rix' s
    simp only [t14_go, Bool.false_eq_true, if_false]
    rcases hw : D.write s (i % 4) (i % 256) with _ | s1
    · simp
    · dsimp only
      rcases hrd : D.readReg s1 (i % 4) with _ | ⟨w, s2⟩
      · simp
      · dsimp only
        by_cases hv : i % 256 = w % 256
        · rw [if_pos hv, if_pos hv]
          obtain ⟨h1, h2, h3, h4⟩ := ih (i+1) rix rix' s2
          exact ⟨h1, h2, by rw [h3], h4⟩
        · rw [if_neg hv, if_neg hv]
          exact ⟨rfl, rfl, rfl, rfl⟩

theorem t0_go_det {σ : Type} (D : Device σ) (rng rng' : Nat → Nat) :
    ∀ fuel i rix rix' s,
      ((t0_go D false rng i rix fuel s).ok = (t0_go D false rng' i rix' fuel s).ok)
    ∧ ((t0_go D false rng i rix fuel s).dev = (t0_go D false rng' i rix' fuel s).dev)
    ∧ ((t0_go D false rng i rix fuel s).ops = (t0_go D false rng' i rix' fuel s).ops)
    ∧ ((t0_go D false rng i rix fuel s).diags
        = (t0_go D false rng' i rix' fuel s).diags) := by
  intro fuel
  induction fuel with
  | zero =>
    intro i rix rix' s
    simp [t0_go]
  | succ f ih =>
    intro i rix rix' s
    simp only [t0_go, Bool.false_eq_true, if_false]
    rcases hw : D.write s 0 (i % 256) with _ | s1
    · simp
    · dsimp only
      rcases hrd : D.readReg s1 0 with _ | ⟨w, s2⟩
      · simp
      · dsimp only
        by_cases hv : i % 256 % 16 = w % 256 % 16
        · rw [if_pos hv, if_pos hv]
          obtain ⟨h1, h2, h3, h4⟩ := ih (i+1) rix rix' s2
          exact ⟨h1, h2, by rw [h3], h4⟩
        · rw [if_neg hv, if_neg hv]
          exact ⟨rfl, rfl, rfl, rfl⟩

theorem t5_go_det {σ : Type} (D : Device σ) (rng rng' : Nat → Nat) :
    ∀ fuel i rix rix' s,
      ((t5_go D false rng i rix fuel s).ok = (t5_go D false rng' i rix' fuel s).ok)
    ∧ ((t5_go D false rng i rix fuel s).dev = (t5_go D false rng' i rix' fuel s).dev)
    ∧ ((t5_go D false rng i rix fuel s).ops = (t5_go D false rng' i rix' fuel s).ops)
    ∧ ((t5_go D false rng i rix fuel s).diags
        = (t5_go D false rng' i rix' fuel s).diags) := by
  intro fuel
  induction fuel with
  | zero =>
    intro i rix rix' s
    simp [t5_go]
  | succ f ih =>
    intro i rix rix' s
    simp only [t5_go, Bool.false_eq_true, if_false]
    rcases hw : D.write s ((i % 250) + 5) (i % 256) with _ | s1
    · simp
    · dsimp only
      rcases hrr : D.rawRead s1 with _ | ⟨w, s2⟩
      · simp
      · dsimp only
        by_cases hz : w % 256 = 0
        · rw [if_pos hz, if_pos hz]
          obtain ⟨h1, h2, h3, h4⟩ := ih (i+1) rix rix' s2
          exact ⟨h1, h2, by rw [h3], h4⟩
        · rw [if_neg hz, if_neg hz]
          exact ⟨rfl, rfl, rfl, rfl⟩

theorem t4_init_det {σ : Type} (D : Device σ) (rng rng' : Nat → Nat) :
    ∀ fuel regs i rix rix' s,
      ((t4_init D false rng regs i rix fuel s).1
        = (t4_init D false rng' regs i rix' fuel s).1)
    ∧ ((t4_init D false rng regs i rix fuel s).2.1
        = (t4_init D false rng' regs i rix' fuel s).2.1)
    ∧ ((t4_init D false rng regs i rix fuel s).2.2 = rix)
    ∧ ((t4_init D false rng' regs i rix' fuel s).2.2 = rix') := by
  intro fuel
  induction fuel with
  | zero =>
    intro regs i rix rix' s
    simp [t4_init]
  | succ f ih =>
    intro regs i rix rix' s
    simp only [t4_init, Bool.false_eq_true, if_false]
    rcases hw : D.write s i (i % 256) with _ | s1
    · simp
    · dsimp only
      obtain ⟨h1, h2, h3, h4⟩ := ih (regs.set i (i % 256)) (i+1) rix rix' s1
      refine ⟨?_, h2, h3, h4⟩
      rw [h1]

theorem t4_go_det {σ : Type} (D : Device σ) (rng rng' : Nat → Nat)
    (regs : List Nat) :
    ∀ fuel i rix rix' s,
      ((t4_go D false rng regs i rix fuel s).ok
        = (t4_go D false rng' regs i rix' fuel s).ok)
    ∧ ((t4_go D false rng regs i rix fuel s).dev
        = (t4_go D false rng' regs i rix' fuel s).dev)
    ∧ ((t4_go D false rng regs i rix fuel s).ops
        = (t4_go D false rng' regs i rix' fuel s).ops)
    ∧ ((t4_go D false rng regs i rix fuel s).diags
        = (t4_go D false rng' regs i rix' fuel s).diags) := by
  intro fuel
  induction fuel with
  | zero =>
    intro i rix rix' s
    simp [t4_go]
  | succ f ih =>
    intro i rix rix' s
    simp only [t4_go, Bool.false_eq_true, if_false]
    rcases hw : D.write s ((i % 250) + 5) (i % 256) with _ | s1
    · simp
    · dsimp only
      by_cases hc : (check_all_register D regs s1).ok = true
      · rw [if_pos hc, if_pos hc]
        obtain ⟨h1, h2, h3, h4⟩ := ih (i+1) rix rix' (check_all_register D regs s1).dev
        exact ⟨h1, h2, by rw [h3], h4⟩
      · rw [if_neg hc, if_neg hc]
        exact ⟨rfl, rfl, rfl, rfl⟩

theorem run_tests_go_spec :
    ∀ (tests : List Bool) (n : Nat),
      run_tests_go n tests =
        ((if tests.findIdx not = tests.length then 0
          else n + tests.findIdx not + 1),
         List.range' n (min (tests.findIdx not + 1) tests.length)) := by
  intro tests
  induction tests with
  | nil =>
    intro n
    simp [run_tests_go]
  | cons t rest ih =>
    intro n
    cases t
    · simp only [run_tests_go, List.findIdx_cons, not, cond_true, List.length_cons]
      have h1 : ¬(0 = rest.length + 1) := by omega
      rw [if_neg h1]
      have h2 : min (0 + 1) (rest.length + 1) = 1 := by omega
      rw [h2]
      simp [List.range'_succ]
    · simp only [run_tests_go, List.findIdx_cons, not, cond_false, List.length_cons]
      rw [ih (n+1)]
      by_cases h : rest.findIdx not = rest.length
      · rw [if_pos h, if_pos (by omega : rest.findIdx not + 1 = rest.length + 1)]
        have h2 : min (rest.findIdx not + 1 + 1) (rest.length + 1)
            = min (rest.findIdx not + 1) rest.length + 1 := Nat.succ_min_succ _ _
        rw [h2, List.range'_succ]
        simp
      · rw [if_neg h, if_neg (by omega : ¬(rest.findIdx not + 1 = rest.length + 1))]
        have h2 : min (rest.findIdx not + 1 + 1) (rest.length + 1)
            = min (rest.findIdx not + 1) rest.length + 1 := Nat.succ_min_succ _ _
        rw [h2, List.range'_succ]
        simp
        omega

theorem led_show_number_or : ∀ (c : Nat) (l : Leds),
    led_show_number c l =
      ⟨l.led1 || c.testBit 0, l.led2 || c.testBit 1,
       l.led3 || c.testBit 2, l.led4 || c.testBit 3⟩ := by
  intro c l
  have e0 : c &&& 1 = (c.testBit 0).toNat * 1 := by
    simpa using Nat.and_two_pow c 0
  have e1 : c &&& 2 = (c.testBit 1).toNat * 2 := by
    simpa using Nat.and_two_pow c 1
  have e2 : c &&& 4 = (c.testBit 2).toNat * 4 := by
    simpa using Nat.and_two_pow c 2
  have e3 : c &&& 8 = (c.testBit 3).toNat * 8 := by
    simpa using Nat.and_two_pow c 3
  rcases hb0 : c.testBit 0 <;> rcases hb1 : c.testBit 1 <;>
    rcases hb2 : c.testBit 2 <;> rcases hb3 : c.testBit 3 <;>
    simp [led_show_number, e0, e1, e2, e3, hb0, hb1, hb2, hb3]

theorem test4_det_ops {σ : Type} (D : Device σ) (rng rng' : Nat → Nat)
    (rix rix' : Nat) (s : σ) :
    (test_write_invalid_reg_read_all D false rng rix s).ops
      = (test_write_invalid_reg_read_all D false rng' rix' s).ops := by
  simp only [test_write_invalid_reg_read_all]
  obtain ⟨h1, h2, h3, h4⟩ := t4_init_det D rng rng' 5 [0, 0, 0, 0, 0] 0 rix rix' s
  by_cases hok : (t4_init D false rng [0, 0, 0, 0, 0] 0 rix 5 s).1.ok = true
  · have hok' : (t4_init D false rng' [0, 0, 0, 0, 0] 0 rix' 5 s).1.ok = true := by
      rw [← h1]; exact hok
    rw [if_pos hok, if_pos hok']
    dsimp only
    rw [h3, h4, ← h2, ← h1]
    rw [(t4_go_det D rng rng' _ TEST_WRITE_INVALID_REG_READ_ALL_COUNT
          0 rix rix' _).2.2.1]
  · have hok' : ¬(t4_init D false rng' [0, 0, 0, 0, 0] 0 rix' 5 s).1.ok = true := by
      rw [← h1]; exact hok
    rw [if_neg hok, if_neg hok']
    dsimp only
    rw [h1]

/-- C1: the round-trip test for registers 1-4 never writes register 4 and
does write register 0: every write it issues targets an address in
`[0, 3]` (`rand() % 4` resp. `i % 4`), and the first write of the
deterministic run on an acknowledge-all device targets register 0 — the
source contradicts its own doc comment, which says the register is
always in range 1-4. -/
theorem test_reg_1_4_writes_outside_claimed_range :
    (∀ (σ : Type) (D : Device σ) (rnd : Bool) (rng : Nat → Nat) (rix : Nat) (s : σ),
       (test_write_read_reg_1_4 D rnd rng rix s).ops.all addrLe3 = true)
  ∧ (test_write_read_reg_1_4 trivDev false (fun _ => 0) 0 ()).ops.head?
      = some (BusOp.write 0 0 true) := by
  constructor
  · intro σ D rnd rng rix s
    exact (t14_go_master D rnd rng _ 0 rix s).1
  · decide

/-- C2: the invalid-register tests generate addresses with
`(rand() % 250) + 5` resp. `(i % 250) + 5`, so every invalid-register
write targets `[5, 254]` (address 255 is unreachable, contradicting the
documented range 5-255), and the boundary address 254 is reachable. -/
theorem invalid_reg_generator_range :
    (∀ (σ : Type) (D : Device σ) (rnd : Bool) (rng : Nat → Nat) (rix : Nat) (s : σ),
       ((test_write_invalid_reg_read_all D rnd rng rix s).ops.all addrLe254 = true)
     ∧ ((test_write_invalid_reg_read_zero D rnd rng rix s).ops.all addrInvalidRange
         = true))
  ∧ BusOp.write 254 249 true
      ∈ (test_write_invalid_reg_read_all trivDev true (fun _ => 249) 0 ()).ops := by
  constructor
  · intro σ D rnd rng rix s
    exact ⟨(test_write_invalid_reg_read_all_master D rnd rng rix s).1,
           (t5_go_master D rnd rng _ 0 rix s).2.2.2.1⟩
  · decide

/-- C3: `check_all_register` issues only `read_register` transactions,
at addresses `0, 1, 2, ...` in order, at most five of them; every read
except possibly the last one succeeded and matched (register 0 on the
low nibble, registers 1-4 exactly), so it stops at the first failure
without issuing the remaining reads; and it returns true exactly when
all five reads were issued and all five comparisons hold. -/
theorem check_all_register_spec :
    ∀ (σ : Type) (D : Device σ) (expected : List Nat) (s : σ),
      ((check_all_register D expected s).ops.all BusOp.isReadReg = true)
    ∧ ((check_all_register D expected s).ops.map opAddr
        = List.range (check_all_register D expected s).ops.length)
    ∧ ((check_all_register D expected s).ops.length ≤ 5)
    ∧ ((check_all_register D expected s).ops.dropLast.all (goodRead expected)
        = true)
    ∧ ((check_all_register D expected s).ok
        = (decide ((check_all_register D expected s).ops.length = 5)
           && (check_all_register D expected s).ops.all (goodRead expected))) := by
  intro σ D expected s
  obtain ⟨h1, h2, h3, h4, h5⟩ := check_go_master D expected 5 0 s
  exact ⟨h1, by rw [List.range_eq_range']; exact h2, h3, h4, h5⟩

/-- C4: `run_tests` executes the tests in order starting at index 0,
stopping at the first failure: it returns the 1-based index of the first
failing test (0 if none fails), the executed indices are exactly
`0, ..., k` up to and including the first failure (all of them when none
fails), and no test index is ever executed twice. -/
theorem run_tests_spec :
    ∀ tests : List Bool,
      (run_tests tests
        = ((if tests.findIdx not = tests.length then 0
            else tests.findIdx not + 1),
           List.range (min (tests.findIdx not + 1) tests.length)))
    ∧ (run_tests tests).2.Nodup := by
  intro tests
  constructor
  · rw [run_tests, run_tests_go_spec]
    simp [List.range_eq_range']
  · rw [run_tests, run_tests_go_spec]
    simp only
    rw [← List.range_eq_range']
    exact List.nodup_range _

/-- C5 counterexample: `test_write_reg_read_all` has no deterministic
mode — its sequence of bus writes depends on the `rand()` stream: two
runs on the same acknowledge-all device with different random streams
issue different write sequences. -/
theorem test_write_reg_read_all_depends_on_rng :
    ((test_write_reg_read_all trivDev (fun _ => 2) 0 ()).ops
      == (test_write_reg_read_all trivDev (fun _ => 1) 0 ()).ops) = false := by
  decide

/-- C5 as amended: the four tests that do have the compile-time switch
(tests 1, 2, 4 and 5) issue, in deterministic mode, a sequence of bus
operations that does not depend on the random stream or on the position
in it; `test_write_reg_read_all` (test 3) has no such switch in the
source and always consumes `rand()`. -/
theorem det_mode_writes_rng_independent :
    ∀ (σ : Type) (D : Device σ) (rng rng' : Nat → Nat) (rix rix' : Nat) (s : σ),
      ((test_write_read_reg_1_4 D false rng rix s).ops
        = (test_write_read_reg_1_4 D false rng' rix' s).ops)
    ∧ ((test_write_read_reg_0 D false rng rix s).ops
        = (test_write_read_reg_0 D false rng' rix' s).ops)
    ∧ ((test_write_invalid_reg_read_all D false rng rix s).ops
        = (test_write_invalid_reg_read_all D false rng' rix' s).ops)
    ∧ ((test_write_invalid_reg_read_zero D false rng rix s).ops
        = (test_write_invalid_reg_read_zero D false rng' rix' s).ops) := by
  intro σ D rng rng' rix rix' s
  exact ⟨(t14_go_det D rng rng' _ 0 rix rix' s).2.2.1,
         (t0_go_det D rng rng' _ 0 rix rix' s).2.2.1,
         test4_det_ops D rng rng' rix rix' s,
         (t5_go_det D rng rng' _ 0 rix rix' s).2.2.1⟩

/-- C6: each iteration of `test_write_invalid_reg_read_zero` issues one
write followed by one bare raw read (never an address-select read), and
the test returns true exactly when every issued operation succeeded,
the raw reads all returning the byte zero — equivalently, it returns
false exactly when some iteration had a failed write, a failed raw read,
or a nonzero raw-read byte. -/
theorem test_write_invalid_reg_read_zero_spec :
    ∀ (σ : Type) (D : Device σ) (rnd : Bool) (rng : Nat → Nat) (rix : Nat) (s : σ),
      ((test_write_invalid_reg_read_zero D rnd rng rix s).ops.all
          (fun op => !BusOp.isReadReg op) = true)
    ∧ (isWrRaw (test_write_invalid_reg_read_zero D rnd rng rix s).ops = true)
    ∧ ((test_write_invalid_reg_read_zero D rnd rng rix s).ok
        = (test_write_invalid_reg_read_zero D rnd rng rix s).ops.all goodZero) := by
  intro σ D rnd rng rix s
  obtain ⟨h1, h2, h3, _, _⟩ := t5_go_master D rnd rng _ 0 rix s
  exact ⟨h1, h2, h3⟩

/-- C7: the entry point returns (with exit code 0) exactly when
`run_tests` reports a failing test; when every test passes it never
returns, and the flashing loop it enters drives all four LEDs on and all
four LEDs off in alternating phases of 100 ms each. -/
theorem main_termination_spec :
    (∀ tests : List Bool,
        ((run_tests tests).1 = 0 → mainEntry tests = MainOutcome.flashForever)
      ∧ (∀ c l, mainEntry tests = MainOutcome.exitsWith c l
           → c = 0 ∧ (run_tests tests).1 ≠ 0))
  ∧ (∀ n : Nat, flash_all_leds n = ((if n % 2 = 0 then ledsOn else ledsOff), 100)) := by
  constructor
  · intro tests
    constructor
    · intro h
      simp [mainEntry, h]
    · intro c l hml
      by_cases h : (run_tests tests).1 = 0
      · simp [mainEntry, h] at hml
      · refine ⟨?_, h⟩
        simp only [mainEntry] at hml
        rw [if_neg h] at hml
        exact (MainOutcome.exitsWith.inj hml).1.symm
  · intro n
    by_cases h : n % 2 = 0 <;> simp [flash_all_leds, h]

theorem main_termination_spec_witness :
    mainEntry [] = MainOutcome.flashForever
  ∧ (0 = 0 ∧ (run_tests [false]).1 ≠ 0) :=
  ⟨(main_termination_spec.1 []).1 (by decide),
   (main_termination_spec.1 [false]).2 0 ⟨true, false, false, false⟩ (by decide)⟩

/-- C8: when `run_tests` reports a failure, the entry point returns 0
with LED `k` lit exactly when bit `k` of the 1-based failing test index
is set (the LEDs were cleared at startup, and `led_show_number` shows
the low bits of the index). -/
theorem main_failure_led_encoding :
    ∀ tests : List Bool, (run_tests tests).1 ≠ 0 →
      mainEntry tests = MainOutcome.exitsWith 0
        ⟨((run_tests tests).1).testBit 0, ((run_tests tests).1).testBit 1,
         ((run_tests tests).1).testBit 2, ((run_tests tests).1).testBit 3⟩ := by
  intro tests h
  simp only [mainEntry]
  rw [if_neg h]
  rw [led_show_number_or]
  have hb : ∀ k, k < 8 → ((run_tests tests).1 % 256).testBit k
      = ((run_tests tests).1).testBit k := by
    intro k hk
    have h2 := Nat.testBit_mod_two_pow (run_tests tests).1 8 k
    rw [show (2 : Nat) ^ 8 = 256 from by norm_num] at h2
    simpa [hk] using h2
  simp [hb 0 (by omega), hb 1 (by omega), hb 2 (by omega), hb 3 (by omega)]

theorem main_failure_led_encoding_witness :
    (run_tests [true, true, false]).1 ≠ 0
  ∧ mainEntry [true, true, false]
      = MainOutcome.exitsWith 0 ⟨true, true, false, false⟩ := by
  refine ⟨by decide, ?_⟩
  have h := main_failure_led_encoding [true, true, false] (by decide)
  exact h.trans (by decide)

/-- C9: the two round-trip tests are the only ones that can print a
mismatch diagnostic: tests 3, 4 and 5 never print one; test 1 and
test 2 print at most one line, only when failing on a value mismatch
(test 2 logging register 0 and the two low nibbles); and concrete
failing runs of tests 1 and 2 do print it. -/
theorem diag_output_only_roundtrip_tests :
    (∀ (σ : Type) (D : Device σ) (rng : Nat → Nat) (rix : Nat) (s : σ),
       (test_write_reg_read_all D rng rix s).diags = [])
  ∧ (∀ (σ : Type) (D : Device σ) (rnd : Bool) (rng : Nat → Nat) (rix : Nat) (s : σ),
       ((test_write_invalid_reg_read_all D rnd rng rix s).diags = [])
     ∧ ((test_write_invalid_reg_read_zero D rnd rng rix s).diags = []))
  ∧ (∀ (σ : Type) (D : Device σ) (rnd : Bool) (rng : Nat → Nat) (rix : Nat) (s : σ),
       (test_write_read_reg_1_4 D rnd rng rix s).diags = []
       ∨ ((test_write_read_reg_1_4 D rnd rng rix s).ok = false
          ∧ ∃ d : Diag, (test_write_read_reg_1_4 D rnd rng rix s).diags = [d]
            ∧ (d.expected == d.observed) = false))
  ∧ (∀ (σ : Type) (D : Device σ) (rnd : Bool) (rng : Nat → Nat) (rix : Nat) (s : σ),
       (test_write_read_reg_0 D rnd rng rix s).diags = []
       ∨ ((test_write_read_reg_0 D rnd rng rix s).ok = false
          ∧ ∃ d : Diag, (test_write_read_reg_0 D rnd rng rix s).diags = [d]
            ∧ d.reg = 0 ∧ (d.expected == d.observed) = false
            ∧ d.expected < 16 ∧ d.observed < 16))
  ∧ ((test_write_read_reg_1_4 trivDev false (fun _ => 0) 0 ()).diags
      = [⟨1, 1, 0⟩])
  ∧ ((test_write_read_reg_0 trivDev false (fun _ => 0) 0 ()).diags
      = [⟨0, 1, 0⟩]) := by
  refine ⟨?_, ?_, ?_, ?_, ?_, ?_⟩
  · intro σ D rng rix s
    exact test_write_reg_read_all_diags D rng rix s
  · intro σ D rnd rng rix s
    exact ⟨(test_write_invalid_reg_read_all_master D rnd rng rix s).2,
           (t5_go_master D rnd rng _ 0 rix s).2.2.2.2⟩
  · intro σ D rnd rng rix s
    exact (t14_go_master D rnd rng _ 0 rix s).2
  · intro σ D rnd rng rix s
    exact t0_go_master D rnd rng _ 0 rix s
  · decide
  · decide

/-- C10: `led_show_number` only turns LEDs on, never off: the resulting
state is the prior state bitwise-or the low four bits of the argument,
so LEDs whose bit is clear keep their prior state. -/
theorem led_show_number_only_sets :
    ∀ (c : Nat) (l : Leds),
      led_show_number c l =
        ⟨l.led1 || c.testBit 0, l.led2 || c.testBit 1,
         l.led3 || c.testBit 2, l.led4 || c.testBit 3⟩ :=
  led_show_number_or
